import Mathlib

/-!
Shallow embedding of the region-classification engine in `china_ip_checker.py`
and of the pure record-parsing logic of the diagnostic probe handlers in
`app.py` (SPF, DKIM, TLS), together with proofs of the specification claims
about them.

External effects (the GeoLite2 database reader, DNS resolution, sockets) are
modelled as explicit oracles passed in as functions.  The nondeterminism of
the thread pool in `check_batch` is modelled by quantifying over the order in
which tasks complete (`comp`), over the per-task observed cache-hit flag
(`cachedOf`), and over whether `future.result` raised for a task
(`timeoutOf`).
-/

/-- Python truthiness of an optional string (`None` and `""` are falsy). -/
def pyTruthyOpt (v : Option String) : Bool :=
  match v with
  | none => false
  | some s => !s.data.isEmpty

/-- Python `x or d` for an optional string `x`: the value if truthy, else `d`. -/
def pyStrOr (v : Option String) (d : String) : String :=
  match v with
  | none => d
  | some s => if s.data.isEmpty then d else s

namespace ChinaIPChecker

/-- Outcome of one raw GeoIP reader call inside `_query_database`: the reader
succeeds with an optional ISO country code, or raises
`AddressNotFoundError`, or raises some other exception whose text is `msg`. -/
inductive QueryOutcome where
  | found (code : Option String)
  | notFound
  | failure (msg : String)
deriving DecidableEq

/-- The offline GeoIP database, an opaque oracle (spec §2 `GeoLookupSource`). -/
abbrev GeoDB := String → QueryOutcome

/-- `_query_database(ip)`: `(iso_code, None)` on success, `(None, 'IP地址未找到')`
on `AddressNotFoundError`, `(None, str(e))` on any other exception. -/
def queryDatabase (db : GeoDB) (ip : String) : Option String × Option String :=
  match db ip with
  | .found code => (code, none)
  | .notFound => (none, some "IP地址未找到")
  | .failure msg => (none, some msg)

/-- The result dict produced by `_is_china_ip_single` / `check_batch`
(spec §3 `IPClassification`; `is_china` = `in_target_region`,
`country_code` = `region_code`, `cached` = `from_cache`). -/
structure Result where
  ip : String
  is_china : Bool
  country_code : Option String
  error : Option String
  cached : Bool
deriving DecidableEq

/-- Builds the result dict of `_is_china_ip_single` from the `(country_code,
error)` pair returned by the (cached) query and the observed cache-hit flag.
`is_china` mirrors `country_code == 'CN' if country_code else False`. -/
def mkResult (ip : String) (q : Option String × Option String) (cached : Bool) : Result :=
  { ip := ip
    is_china :=
      match q.1 with
      | some cc => if cc.data.isEmpty then false else cc == "CN"
      | none => false
    country_code := q.1
    error := q.2
    cached := cached }

/-- State of `functools.lru_cache(maxsize=cache_size)(_query_database)`:
entries most-recently-used first, plus the `hits`/`misses` counters of
`cache_info()` and the configured `maxsize`. -/
structure Cache where
  entries : List (String × (Option String × Option String))
  hits : Nat
  misses : Nat
  maxsize : Nat
deriving DecidableEq

/-- `cache_clear()`: drops all entries and resets the counters. -/
def Cache.clear (c : Cache) : Cache :=
  { c with entries := [], hits := 0, misses := 0 }

/-- One call of the memoized `self._cached_query(ip)` (sequential semantics):
on a hit the stored pair is returned, `hits` is bumped and the entry moves to
the most-recently-used position; on a miss `_query_database` runs, `misses`
is bumped and the new entry is inserted, evicting beyond `maxsize`. -/
def cachedQuery (db : GeoDB) (c : Cache) (ip : String) :
    (Option String × Option String) × Cache :=
  match c.entries.find? (fun e => e.1 == ip) with
  | some e =>
      (e.2, { c with hits := c.hits + 1
                     entries := (ip, e.2) :: c.entries.filter (fun e2 => e2.1 != ip) })
  | none =>
      (queryDatabase db ip,
       { c with misses := c.misses + 1
                entries := ((ip, queryDatabase db ip) :: c.entries).take c.maxsize })

/-- `_is_china_ip_single(ip)` (sequential semantics): queries through the
cache and reports `cached` exactly when the `hits` counter increased. -/
def is_china_ip_single (db : GeoDB) (c : Cache) (ip : String) : Result × Cache :=
  let r := cachedQuery db c ip
  (mkResult ip r.1 (decide (c.hits < r.2.hits)), r.2)

/-- `check_single(ip, use_cache)`: clears the cache first when
`use_cache` is false, then runs `_is_china_ip_single`. -/
def check_single (db : GeoDB) (c : Cache) (ip : String) (use_cache : Bool) :
    Result × Cache :=
  let c := if use_cache then c else c.clear
  is_china_ip_single db c ip

/-- One step of `dict.fromkeys` insertion: keep the accumulator if the key is
already present, else append it. -/
def dedupStep (acc : List String) (x : String) : List String :=
  if x ∈ acc then acc else acc ++ [x]

/-- `list(dict.fromkeys(ips))` — deduplication preserving first-occurrence
order (line 125 of `china_ip_checker.py`). -/
def pydedup (l : List String) : List String :=
  l.foldl dedupStep []

/-- The result a completed batch task delivers for `ip`: exactly the
`_is_china_ip_single` result, with the observed cache-hit flag abstracted by
the oracle `cachedOf` (under concurrency the flag depends on interleaving;
the `(country_code, error)` pair is always `_query_database`'s answer since
the cache is only ever filled from it). -/
def taskResult (db : GeoDB) (cachedOf : String → Bool) (ip : String) : Result :=
  mkResult ip (queryDatabase db ip) (cachedOf ip)

/-- The error entry built in the `except` branch of the `as_completed` loop
when `future.result(timeout=...)` raises with text `msg`. -/
def timeoutResult (ip msg : String) : Result :=
  { ip := ip
    is_china := false
    country_code := none
    error := some ("查询超时或异常: " ++ msg)
    cached := false }

/-- What the `as_completed` loop appends for the task of `ip`:
its result if `future.result` returned, the error entry if it raised
(`timeoutOf ip = some msg`). -/
def taskOf (db : GeoDB) (cachedOf : String → Bool) (timeoutOf : String → Option String)
    (ip : String) : Result :=
  match timeoutOf ip with
  | none => taskResult db cachedOf ip
  | some msg => timeoutResult ip msg

/-- The sort key of line 159-160: `ip_order.get(x['ip'], inf)`, i.e. the index
of the result's ip among the deduplicated ips (`List.indexOf` returns the
length — larger than every present key — when absent, matching `inf`). -/
def ipKey (unique : List String) (r : Result) : Nat :=
  List.indexOf r.ip unique

/-- `check_batch(ips)`: empty input short-circuits; a single unique ip is
classified synchronously; otherwise one task per unique ip runs on the pool,
results are collected in completion order `comp` and finally sorted by
first-occurrence index (`list.sort` is a stable merge sort; the keys here are
distinct). `max_workers` and `use_cache` do not affect the modelled
observables and are omitted. -/
def check_batch (db : GeoDB) (cachedOf : String → Bool) (timeoutOf : String → Option String)
    (comp : List String) (ips : List String) : List Result :=
  if ips.isEmpty then []
  else
    match pydedup ips with
    | [ip] => [taskResult db cachedOf ip]
    | unique =>
        (comp.map (taskOf db cachedOf timeoutOf)).mergeSort
          (fun a b => decide (ipKey unique a ≤ ipKey unique b))

/-- Python truthiness test `r['error']` used by the filters and statistics. -/
def errTruthy (v : Option String) : Bool :=
  pyTruthyOpt v

/-- `filter_china_ips(ips)`:
`[r['ip'] for r in results if r['is_china'] and not r['error']]`. -/
def filter_china_ips (db : GeoDB) (cachedOf : String → Bool)
    (timeoutOf : String → Option String) (comp : List String) (ips : List String) :
    List String :=
  ((check_batch db cachedOf timeoutOf comp ips).filter
    (fun r => r.is_china && !errTruthy r.error)).map (fun r => r.ip)

/-- `filter_foreign_ips(ips)`:
`[r['ip'] for r in results if not r['is_china'] and not r['error']]`. -/
def filter_foreign_ips (db : GeoDB) (cachedOf : String → Bool)
    (timeoutOf : String → Option String) (comp : List String) (ips : List String) :
    List String :=
  ((check_batch db cachedOf timeoutOf comp ips).filter
    (fun r => !r.is_china && !errTruthy r.error)).map (fun r => r.ip)

/-- Rounding to two decimals, `round(x, 2)`, over exact rationals.
(Python rounds binary floats with ties-to-even; the claims checked here never
hit a tie, so the exact-rational model is used.) -/
def round2 (x : ℚ) : ℚ :=
  (round (x * 100) : ℤ) / 100

/-- The statistics dict of `get_statistics`. -/
structure Stats where
  total : Nat
  china_ips : Nat
  foreign_ips : Nat
  error_ips : Nat
  cached_ips : Nat
  china_percentage : ℚ
  cache_hit_rate : ℚ
deriving DecidableEq

/-- `get_statistics(ips)`: counts over one `check_batch` call, with
percentages rounded to two decimals and forced to 0 when `total == 0`. -/
def get_statistics (db : GeoDB) (cachedOf : String → Bool)
    (timeoutOf : String → Option String) (comp : List String) (ips : List String) :
    Stats :=
  let results := check_batch db cachedOf timeoutOf comp ips
  let total := results.length
  let china := results.countP (fun r => r.is_china && !errTruthy r.error)
  let foreign := results.countP (fun r => !r.is_china && !errTruthy r.error)
  let errs := results.countP (fun r => errTruthy r.error)
  let cached := results.countP (fun r => r.cached)
  { total := total
    china_ips := china
    foreign_ips := foreign
    error_ips := errs
    cached_ips := cached
    china_percentage :=
      if 0 < total then round2 ((china : ℚ) / (total : ℚ) * 100) else 0
    cache_hit_rate :=
      if 0 < total then round2 ((cached : ℚ) / (total : ℚ) * 100) else 0 }

/-- Well-formedness of a cache state: every stored pair is what
`_query_database` answers for its key.  Holds for every cache reachable in
the program, since the cache is only ever filled from `_query_database`. -/
def CacheWF (db : GeoDB) (c : Cache) : Prop :=
  ∀ e ∈ c.entries, e.2 = queryDatabase db e.1

end ChinaIPChecker

namespace App

/-- `tr_api(lang, zh, en)`: inline translation helper. -/
def tr_api (lang : String) (zh en : String) : String :=
  if lang == "zh" then zh else en

/-- Whether `pat` is a leading segment of `s` (character lists). -/
def isPrefixChars : List Char → List Char → Bool
  | [], _ => true
  | _ :: _, [] => false
  | a :: as, b :: bs => a == b && isPrefixChars as bs

/-- Fuel-driven worker for `countOcc` (the fuel bounds the number of scan
steps; `countOcc` supplies `s.length`, which always suffices). -/
def countOccF (pat : List Char) : Nat → List Char → Nat
  | _, [] => 0
  | 0, _ :: _ => 0
  | fuel + 1, c :: rest =>
      if isPrefixChars pat (c :: rest) then
        1 + countOccF pat fuel ((c :: rest).drop pat.length)
      else
        countOccF pat fuel rest

/-- Python `s.count(pat)`: number of non-overlapping occurrences of `pat`
in `s`, scanning left to right (`len(s)+1` for the empty pattern). -/
def countOcc (pat s : List Char) : Nat :=
  if pat.isEmpty then s.length + 1 else countOccF pat s.length s

/-- Python `pat in s` for strings: substring containment. -/
def containsSub (pat : List Char) : List Char → Bool
  | [] => pat.isEmpty
  | c :: rest => isPrefixChars pat (c :: rest) || containsSub pat rest

/-- `spf.count("include:")` (line 285 of `app.py`). -/
def spfIncludes (spf : String) : Nat :=
  countOcc "include:".data spf.data

/-- `policy = "-all" if "-all" in spf else "~all" if "~all" in spf else "?all"`
(line 286 of `app.py`). -/
def spfPolicy (spf : String) : String :=
  if containsSub "-all".data spf.data then "-all"
  else if containsSub "~all".data spf.data then "~all"
  else "?all"

/-- The JSON envelope of the SPF probe. -/
structure SpfResult where
  ok : Bool
  data : Option String
  issues : List String
  error : Option String
deriving DecidableEq

/-- The record-processing part of `api_spf`, given the resolved TXT strings:
select the first record starting with `v=spf1` (else fail), count
`include:` occurrences and pick the policy qualifier. -/
def api_spf (lang : String) (txts : List String) : SpfResult :=
  match txts.find? (fun t => isPrefixChars "v=spf1".data t.data) with
  | none =>
      { ok := false
        data := none
        issues := []
        error := some (tr_api lang "未找到 SPF 记录" "SPF record not found") }
  | some spf =>
      { ok := true
        data := some spf
        issues :=
          [tr_api lang ("include 链 " ++ toString (spfIncludes spf))
             ("include chain " ++ toString (spfIncludes spf)),
           tr_api lang ("策略: " ++ spfPolicy spf) ("policy: " ++ spfPolicy spf)]
        error := none }

/-- One element of the DKIM probe's `data` list: `{selector, pubkey}` on
success, `{selector, error}` on a per-selector failure. -/
inductive DkimEntry where
  | okEntry (selector : String) (pubkey : List String)
  | errEntry (selector : String) (error : String)
deriving DecidableEq

/-- The `selector` field of a DKIM entry. -/
def DkimEntry.selector : DkimEntry → String
  | .okEntry s _ => s
  | .errEntry s _ => s

/-- The JSON envelope of the DKIM probe. -/
structure DkimResult where
  ok : Bool
  data : List DkimEntry
  error : Option String
deriving DecidableEq

/-- A DNS TXT resolver oracle: for a queried name, either the list of TXT
strings or the exception text. -/
abbrev TxtResolver := String → Except String (List String)

/-- Python `s.strip()` (whitespace from both ends; ASCII/Unicode whitespace
as classified by `Char.isWhitespace`). -/
def pyStrip (s : String) : String :=
  ⟨((s.data.dropWhile Char.isWhitespace).reverse.dropWhile Char.isWhitespace).reverse⟩

/-- `api_dkim`: validate the stripped domain, then probe each selector
independently at `<selector>._domainkey.<domain>`, turning a per-selector
resolution failure into a per-selector error entry. -/
def api_dkim (lang : String) (resolver : TxtResolver) (target : String)
    (selectors : List String) : DkimResult :=
  let domain := pyStrip target
  if domain.data.isEmpty then
    { ok := false
      data := []
      error := some (tr_api lang "缺少目标域名" "Missing target domain") }
  else
    { ok := true
      data := selectors.map (fun s =>
        match resolver (s ++ "._domainkey." ++ domain) with
        | .ok txts => .okEntry s txts
        | .error e => .errEntry s e)
      error := none }

/-- ASCII lowering of one character, as `str.lower` acts on the ASCII
attribute names compared against `"commonname"`. -/
def lowerChar (c : Char) : Char :=
  if 65 ≤ c.toNat ∧ c.toNat ≤ 90 then Char.ofNat (c.toNat + 32) else c

/-- `k.lower() == "commonname"` for an attribute name `k`. -/
def isCommonNameAttr (k : String) : Bool :=
  k.data.map lowerChar == "commonname".data

/-- The first `(k, v)` pair of one RDN whose attribute name matches
`commonName` case-insensitively (the inner `for k, v in sub` loop breaks at
the first match). -/
def findCNpair (rdn : List (String × String)) : Option (String × String) :=
  rdn.find? (fun kv => isCommonNameAttr kv.1)

/-- The nested subject scan of `api_tls`, carrying the running `cn` value:
each RDN overwrites `cn` with its first `commonName` match (if any), and the
outer loop breaks as soon as `cn` is truthy (`if cn: break` — an empty-string
match does not stop the scan). -/
def scanCN : Option String → List (List (String × String)) → Option String
  | cn, [] => cn
  | cn, rdn :: rest =>
      let cn2 :=
        match findCNpair rdn with
        | some kv => some kv.2
        | none => cn
      if pyTruthyOpt cn2 then cn2 else scanCN cn2 rest

/-- The `data` dict of the TLS probe. -/
structure TlsData where
  starttls : Bool
  minVersion : String
  certCN : String
  weakCiphers : Nat
deriving DecidableEq

/-- The `data` dict built by `api_tls` after a successful handshake, from the
certificate subject (a list of RDNs, each a list of name-value pairs) and the
negotiated protocol version: fixed `starttls`/`weakCiphers` placeholders and
`certCN = cn or "(unknown)"`. -/
def api_tls_data (subject : List (List (String × String))) (version : String) : TlsData :=
  { starttls := false
    minVersion := version
    certCN := pyStrOr (scanCN none subject) "(unknown)"
    weakCiphers := 0 }

/-- `certCN` as claim C6 words it: the value of the first subject
name-value pair — scanning all pairs in order — whose attribute name matches
`commonName` case-insensitively, `"(unknown)"` if no such pair exists.
(Spec-side definition, used only to compare against the code's behaviour.) -/
def claimCertCN (subject : List (List (String × String))) : String :=
  match subject.flatten.find? (fun kv => isCommonNameAttr kv.1) with
  | some kv => kv.2
  | none => "(unknown)"

/-- `certCN` as the loop actually computes it, characterized without the
running accumulator: scanning RDNs in order, each RDN contributes the value
of its first `commonName`-matching pair; `certCN` is the first non-empty
contribution, `"(unknown)"` if every contribution is absent or empty. -/
def specCertCN (subject : List (List (String × String))) : String :=
  match (subject.filterMap (fun rdn => (findCNpair rdn).map (fun kv => kv.2))).find?
      (fun v => !v.data.isEmpty) with
  | some v => v
  | none => "(unknown)"

end App

namespace ChinaIPChecker

theorem mem_dedupStep {acc : List String} {x a : String} :
    a ∈ dedupStep acc x ↔ a ∈ acc ∨ a = x := by
  unfold dedupStep
  by_cases h : x ∈ acc
  · simp only [if_pos h]
    exact ⟨fun ha => Or.inl ha, fun ha => ha.elim id (fun he => he ▸ h)⟩
  · simp [if_neg h, List.mem_append]

theorem mem_foldl_dedupStep (l : List String) :
    ∀ (acc : List String) (a : String),
      a ∈ l.foldl dedupStep acc ↔ a ∈ acc ∨ a ∈ l := by
  induction l with
  | nil => intro acc a; simp
  | cons x xs ih =>
    intro acc a
    rw [List.foldl_cons, ih, mem_dedupStep]
    simp [or_assoc]

theorem mem_pydedup {l : List String} {a : String} : a ∈ pydedup l ↔ a ∈ l := by
  unfold pydedup
  rw [mem_foldl_dedupStep]
  simp

theorem nodup_dedupStep {acc : List String} {x : String} (h : acc.Nodup) :
    (dedupStep acc x).Nodup := by
  unfold dedupStep
  by_cases hx : x ∈ acc
  · simpa [if_pos hx]
  · simp [if_neg hx, List.nodup_append, h, hx]

theorem nodup_foldl_dedupStep (l : List String) :
    ∀ acc : List String, acc.Nodup → (l.foldl dedupStep acc).Nodup := by
  induction l with
  | nil => intro acc h; simpa
  | cons x xs ih =>
    intro acc h
    rw [List.foldl_cons]
    exact ih _ (nodup_dedupStep h)

theorem pydedup_nodup (l : List String) : (pydedup l).Nodup :=
  nodup_foldl_dedupStep l [] List.nodup_nil

theorem pydedup_ne_nil {l : List String} (h : l ≠ []) : pydedup l ≠ [] := by
  obtain ⟨x, xs, rfl⟩ := List.exists_cons_of_ne_nil h
  intro hnil
  have hx : x ∈ pydedup (x :: xs) := mem_pydedup.mpr (List.mem_cons_self x xs)
  rw [hnil] at hx
  exact List.not_mem_nil x hx

theorem mkResult_ip (ip : String) (q : Option String × Option String) (cached : Bool) :
    (mkResult ip q cached).ip = ip := rfl

theorem taskResult_ip (db : GeoDB) (cachedOf : String → Bool) (ip : String) :
    (taskResult db cachedOf ip).ip = ip := rfl

theorem taskOf_ip (db : GeoDB) (cachedOf : String → Bool)
    (timeoutOf : String → Option String) (ip : String) :
    (taskOf db cachedOf timeoutOf ip).ip = ip := by
  unfold taskOf
  cases timeoutOf ip <;> rfl

theorem mergeSort_by_ipKey (unique comp : List String) (g : String → Result)
    (hg : ∀ ip, (g ip).ip = ip) (hnd : unique.Nodup) (hperm : comp.Perm unique) :
    (comp.map g).mergeSort (fun a b => decide (ipKey unique a ≤ ipKey unique b)) =
      unique.map g := by
  have hperm2 :
      ((comp.map g).mergeSort
          (fun a b => decide (ipKey unique a ≤ ipKey unique b))).Perm (unique.map g) :=
    (List.mergeSort_perm (comp.map g) _).trans (hperm.map g)
  have hsorted :
      ((comp.map g).mergeSort
          (fun a b => decide (ipKey unique a ≤ ipKey unique b))).Pairwise
        (fun a b => ipKey unique a ≤ ipKey unique b) := by
    have h := @List.sorted_mergeSort Result
      (fun a b => decide (ipKey unique a ≤ ipKey unique b))
      (fun a b c h1 h2 => by
        simp only [decide_eq_true_eq] at *
        exact Nat.le_trans h1 h2)
      (fun a b => by
        simp only [Bool.or_eq_true, decide_eq_true_eq]
        exact Nat.le_total _ _)
      (comp.map g)
    exact h.imp (fun hab => of_decide_eq_true hab)
  have htarget :
      (unique.map g).Pairwise (fun a b => ipKey unique a < ipKey unique b) := by
    rw [List.pairwise_iff_getElem]
    intro i j hi hj hij
    have hi' : i < unique.length := by simpa using hi
    have hj' : j < unique.length := by simpa using hj
    simp only [List.getElem_map]
    unfold ipKey
    rw [hg, hg, List.indexOf_getElem hnd i hi', List.indexOf_getElem hnd j hj']
    exact hij
  have hne :
      ((comp.map g).mergeSort
          (fun a b => decide (ipKey unique a ≤ ipKey unique b))).Pairwise
        (fun a b => ipKey unique a ≠ ipKey unique b) := by
    exact (List.Perm.pairwise_iff (fun h => Ne.symm h) hperm2).mpr
      (htarget.imp (fun h => Nat.ne_of_lt h))
  have hlt :
      ((comp.map g).mergeSort
          (fun a b => decide (ipKey unique a ≤ ipKey unique b))).Pairwise
        (fun a b => ipKey unique a < ipKey unique b) :=
    (hsorted.and hne).imp (fun h => Nat.lt_of_le_of_ne h.1 h.2)
  haveI : IsAntisymm Result (fun a b => ipKey unique a < ipKey unique b) :=
    ⟨fun a b h1 h2 => absurd (Nat.lt_trans h1 h2) (Nat.lt_irrefl _)⟩
  exact List.eq_of_perm_of_sorted hperm2 hlt htarget

theorem check_batch_multi (db : GeoDB) (cachedOf : String → Bool)
    (timeoutOf : String → Option String) (comp ips : List String)
    (hperm : comp.Perm (pydedup ips)) (h2 : 2 ≤ (pydedup ips).length) :
    check_batch db cachedOf timeoutOf comp ips =
      (pydedup ips).map (taskOf db cachedOf timeoutOf) := by
  have hne : ips ≠ [] := by
    intro h
    rw [h] at h2
    simp [pydedup] at h2
  rw [check_batch, if_neg (by simpa [List.isEmpty_iff] using hne)]
  rcases hu : pydedup ips with _ | ⟨x, _ | ⟨y, rest⟩⟩
  · rw [hu] at h2; simp at h2
  · rw [hu] at h2; simp at h2
  · show (comp.map (taskOf db cachedOf timeoutOf)).mergeSort
        (fun a b => decide (ipKey (x :: y :: rest) a ≤ ipKey (x :: y :: rest) b)) = _
    exact mergeSort_by_ipKey (x :: y :: rest) comp _ (taskOf_ip db cachedOf timeoutOf)
      (hu ▸ pydedup_nodup ips) (hu ▸ hperm)

theorem check_batch_shape (db : GeoDB) (cachedOf : String → Bool)
    (timeoutOf : String → Option String) (comp ips : List String)
    (hperm : comp.Perm (pydedup ips)) :
    ∃ g : String → Result, (∀ ip, (g ip).ip = ip) ∧
      check_batch db cachedOf timeoutOf comp ips = (pydedup ips).map g ∧
      (∀ ip, g ip = taskResult db cachedOf ip ∨ g ip = taskOf db cachedOf timeoutOf ip) := by
  by_cases hnil : ips = []
  · refine ⟨taskResult db cachedOf, taskResult_ip db cachedOf, ?_, fun ip => Or.inl rfl⟩
    subst hnil
    simp [check_batch, pydedup]
  · rcases hu : pydedup ips with _ | ⟨x, _ | ⟨y, rest⟩⟩
    · exact absurd hu (pydedup_ne_nil hnil)
    · refine ⟨taskResult db cachedOf, taskResult_ip db cachedOf, ?_, fun ip => Or.inl rfl⟩
      rw [check_batch, if_neg (by simpa [List.isEmpty_iff] using hnil), hu]
      rfl
    · refine ⟨taskOf db cachedOf timeoutOf, taskOf_ip db cachedOf timeoutOf, ?_,
        fun ip => Or.inr rfl⟩
      have h := check_batch_multi db cachedOf timeoutOf comp ips hperm (by rw [hu]; simp)
      rw [hu] at h
      exact h

end ChinaIPChecker

namespace ChinaIPChecker

theorem queryResult_inv (db : GeoDB) (ip0 ip : String) (cached : Bool)
    (h : (mkResult ip (queryDatabase db ip0) cached).is_china = true) :
    (mkResult ip (queryDatabase db ip0) cached).country_code = some "CN" ∧
      (mkResult ip (queryDatabase db ip0) cached).error = none := by
  cases hdb : db ip0 with
  | found code =>
    cases code with
    | none => simp [mkResult, queryDatabase, hdb] at h
    | some cc =>
      simp only [mkResult, queryDatabase, hdb] at h ⊢
      rcases hcc : cc.data.isEmpty with _ | _
      · rw [hcc] at h
        simp only [if_neg Bool.false_ne_true] at h
        have : cc = "CN" := by simpa using h
        simp [this]
      · rw [hcc] at h
        simp at h
  | notFound => simp [mkResult, queryDatabase, hdb] at h
  | failure msg => simp [mkResult, queryDatabase, hdb] at h

theorem cachedQuery_fst (db : GeoDB) (c : Cache) (ip : String) (hwf : CacheWF db c) :
    (cachedQuery db c ip).1 = queryDatabase db ip := by
  unfold cachedQuery
  cases hfind : c.entries.find? (fun e => e.1 == ip) with
  | none => rfl
  | some e =>
    have hmem : e ∈ c.entries := List.mem_of_find?_eq_some hfind
    have hip : e.1 = ip := by
      have := List.find?_some hfind
      simpa using this
    simpa using (hip ▸ hwf e hmem)

/-- C2: every classification produced by `_is_china_ip_single` (hence
`check_single`) on a well-formed cache, or appearing in a `check_batch`
output, has `is_china = true` only if `country_code = some "CN"` and the
`error` field is `none`. -/
theorem claim_in_region_invariant (db : GeoDB) (c : Cache) (ip : String)
    (cachedOf : String → Bool) (timeoutOf : String → Option String)
    (comp ips : List String) (r : Result) (hwf : CacheWF db c)
    (hr : r = (is_china_ip_single db c ip).1 ∨
          r ∈ check_batch db cachedOf timeoutOf comp ips)
    (hchina : r.is_china = true) :
    r.country_code = some "CN" ∧ r.error = none := by
  rcases hr with hr | hr
  · subst hr
    have hq : (cachedQuery db c ip).1 = queryDatabase db ip := cachedQuery_fst db c ip hwf
    simp only [is_china_ip_single, hq] at hchina ⊢
    exact queryResult_inv db ip ip _ hchina
  · rw [check_batch] at hr
    by_cases hnil : ips.isEmpty
    · rw [if_pos hnil] at hr
      exact absurd hr (List.not_mem_nil r)
    · rw [if_neg hnil] at hr
      rcases hu : pydedup ips with _ | ⟨x, _ | ⟨y, rest⟩⟩ <;> rw [hu] at hr
      · exact absurd hu (pydedup_ne_nil (by simpa [List.isEmpty_iff] using hnil))
      · have hr2 : r ∈ [taskResult db cachedOf x] := hr
        have hrx : r = taskResult db cachedOf x := List.mem_singleton.mp hr2
        subst hrx
        exact queryResult_inv db x x _ hchina
      · have hr2 : r ∈ (comp.map (taskOf db cachedOf timeoutOf)).mergeSort
            (fun a b => decide (ipKey (x :: y :: rest) a ≤ ipKey (x :: y :: rest) b)) := hr
        have hr3 : r ∈ comp.map (taskOf db cachedOf timeoutOf) :=
          (List.mergeSort_perm _ _).mem_iff.mp hr2
        obtain ⟨ip2, -, rfl⟩ := List.mem_map.mp hr3
        unfold taskOf at hchina ⊢
        cases ht : timeoutOf ip2 with
        | none =>
          rw [ht] at hchina
          exact queryResult_inv db ip2 ip2 _ hchina
        | some msg =>
          rw [ht] at hchina
          exact Bool.noConfusion hchina

/-- Witness for C2 at a concrete database, cache and ip. -/
theorem claim_in_region_invariant_spot :
    (is_china_ip_single (fun _ => QueryOutcome.found (some "CN"))
        ⟨[], 0, 0, 10⟩ "1.2.3.4").1.country_code = some "CN" ∧
    (is_china_ip_single (fun _ => QueryOutcome.found (some "CN"))
        ⟨[], 0, 0, 10⟩ "1.2.3.4").1.error = none :=
  claim_in_region_invariant (fun _ => QueryOutcome.found (some "CN")) ⟨[], 0, 0, 10⟩
    "1.2.3.4" (fun _ => false) (fun _ => none) [] [] _
    (fun e he => absurd he (List.not_mem_nil e)) (Or.inl rfl) (by decide)

/-- C1: for every completion order that is a permutation of the deduplicated
input, the `check_batch` output lists exactly the deduplicated input ips, in
first-occurrence order, and has the corresponding length. -/
theorem claim_batch_output_order (db : GeoDB) (cachedOf : String → Bool)
    (timeoutOf : String → Option String) (comp ips : List String)
    (hperm : comp.Perm (pydedup ips)) :
    (check_batch db cachedOf timeoutOf comp ips).map (fun r => r.ip) = pydedup ips ∧
    (check_batch db cachedOf timeoutOf comp ips).length = (pydedup ips).length := by
  obtain ⟨g, hg, hcb, -⟩ := check_batch_shape db cachedOf timeoutOf comp ips hperm
  have hmap : (check_batch db cachedOf timeoutOf comp ips).map (fun r => r.ip) =
      pydedup ips := by
    rw [hcb, List.map_map]
    have h2 : (pydedup ips).map ((fun r : Result => r.ip) ∘ g) =
        (pydedup ips).map id := List.map_congr_left (fun a _ => hg a)
    rw [h2, List.map_id]
  refine ⟨hmap, ?_⟩
  have := congrArg List.length hmap
  simpa using this

/-- Witness for C1 on a concrete batch with a duplicate, with the tasks
completing in reverse order. -/
theorem claim_batch_output_order_spot :
    (check_batch (fun _ => QueryOutcome.notFound) (fun _ => false) (fun _ => none)
        ["b", "a"] ["a", "b", "a"]).map (fun r => r.ip) = pydedup ["a", "b", "a"] ∧
    (check_batch (fun _ => QueryOutcome.notFound) (fun _ => false) (fun _ => none)
        ["b", "a"] ["a", "b", "a"]).length = (pydedup ["a", "b", "a"]).length :=
  claim_batch_output_order (fun _ => QueryOutcome.notFound) (fun _ => false)
    (fun _ => none) ["b", "a"] ["a", "b", "a"] (by decide)

end ChinaIPChecker

namespace ChinaIPChecker

theorem mkResult_country_code (ip : String) (q : Option String × Option String)
    (b : Bool) : (mkResult ip q b).country_code = q.1 := rfl

theorem mkResult_error (ip : String) (q : Option String × Option String) (b : Bool) :
    (mkResult ip q b).error = q.2 := rfl

theorem mkResult_cached (ip : String) (q : Option String × Option String) (b : Bool) :
    (mkResult ip q b).cached = b := rfl

theorem is_single_fst (db : GeoDB) (c : Cache) (ip : String) :
    (is_china_ip_single db c ip).1 =
      mkResult ip (cachedQuery db c ip).1
        (decide (c.hits < (cachedQuery db c ip).2.hits)) := rfl

theorem is_single_snd (db : GeoDB) (c : Cache) (ip : String) :
    (is_china_ip_single db c ip).2 = (cachedQuery db c ip).2 := rfl

theorem check_single_true (db : GeoDB) (c : Cache) (ip : String) :
    check_single db c ip true = is_china_ip_single db c ip := rfl

theorem cachedQuery_head (db : GeoDB) (c : Cache) (ip : String) (h : 0 < c.maxsize) :
    ∃ rest2, (cachedQuery db c ip).2.entries = (ip, (cachedQuery db c ip).1) :: rest2 := by
  unfold cachedQuery
  cases hfind : c.entries.find? (fun e => e.1 == ip) with
  | some e => exact ⟨c.entries.filter (fun e2 => e2.1 != ip), rfl⟩
  | none =>
    obtain ⟨k, hk⟩ : ∃ k, c.maxsize = k + 1 := ⟨c.maxsize - 1, by omega⟩
    refine ⟨c.entries.take k, ?_⟩
    simp only [hk, List.take_succ_cons]

theorem cachedQuery_hit_head (db : GeoDB) (c : Cache) (ip : String)
    (v : Option String × Option String)
    (rest : List (String × (Option String × Option String)))
    (hent : c.entries = (ip, v) :: rest) :
    (cachedQuery db c ip).1 = v ∧ (cachedQuery db c ip).2.hits = c.hits + 1 ∧
      (cachedQuery db c ip).2.misses = c.misses := by
  unfold cachedQuery
  rw [hent, List.find?_cons_of_pos _ (by simp)]
  exact ⟨rfl, rfl, rfl⟩

/-- C5: with a positive cache capacity, two consecutive `check_single(ip)`
calls with the cache in use and no intervening clear return the same
`country_code` and `error`, the second call reports `cached = true`, and the
second call performs no new database query (the `misses` counter is
unchanged). -/
theorem claim_repeat_single_cached (db : GeoDB) (c : Cache) (ip : String)
    (h : 0 < c.maxsize) :
    (check_single db (check_single db c ip true).2 ip true).1.country_code =
      (check_single db c ip true).1.country_code ∧
    (check_single db (check_single db c ip true).2 ip true).1.error =
      (check_single db c ip true).1.error ∧
    (check_single db (check_single db c ip true).2 ip true).1.cached = true ∧
    (check_single db (check_single db c ip true).2 ip true).2.misses =
      (check_single db c ip true).2.misses := by
  obtain ⟨rest2, hent⟩ := cachedQuery_head db c ip h
  obtain ⟨hv, hh, hm⟩ := cachedQuery_hit_head db (cachedQuery db c ip).2 ip
    (cachedQuery db c ip).1 rest2 hent
  simp only [check_single_true, is_single_fst, is_single_snd, mkResult_country_code,
    mkResult_error, mkResult_cached]
  rw [hv, hh, hm]
  refine ⟨rfl, rfl, by simp, rfl⟩

/-- Witness for C5 at a concrete database, empty cache of capacity 10000
(the default `cache_size`) and a concrete ip. -/
theorem claim_repeat_single_cached_spot :
    (check_single (fun _ => QueryOutcome.found (some "CN"))
        (check_single (fun _ => QueryOutcome.found (some "CN"))
          ⟨[], 0, 0, 10000⟩ "1.2.3.4" true).2 "1.2.3.4" true).1.country_code =
      (check_single (fun _ => QueryOutcome.found (some "CN"))
        ⟨[], 0, 0, 10000⟩ "1.2.3.4" true).1.country_code ∧
    (check_single (fun _ => QueryOutcome.found (some "CN"))
        (check_single (fun _ => QueryOutcome.found (some "CN"))
          ⟨[], 0, 0, 10000⟩ "1.2.3.4" true).2 "1.2.3.4" true).1.error =
      (check_single (fun _ => QueryOutcome.found (some "CN"))
        ⟨[], 0, 0, 10000⟩ "1.2.3.4" true).1.error ∧
    (check_single (fun _ => QueryOutcome.found (some "CN"))
        (check_single (fun _ => QueryOutcome.found (some "CN"))
          ⟨[], 0, 0, 10000⟩ "1.2.3.4" true).2 "1.2.3.4" true).1.cached = true ∧
    (check_single (fun _ => QueryOutcome.found (some "CN"))
        (check_single (fun _ => QueryOutcome.found (some "CN"))
          ⟨[], 0, 0, 10000⟩ "1.2.3.4" true).2 "1.2.3.4" true).2.misses =
      (check_single (fun _ => QueryOutcome.found (some "CN"))
        ⟨[], 0, 0, 10000⟩ "1.2.3.4" true).2.misses :=
  claim_repeat_single_cached (fun _ => QueryOutcome.found (some "CN"))
    ⟨[], 0, 0, 10000⟩ "1.2.3.4" (by decide)

/-- C3 counterexample: a timed-out task's entry does not carry the literal
error string `"timeout"`: `future.result` raising `TimeoutError` (whose
`str` is empty) produces `error = '查询超时或异常: '`. -/
theorem claim_batch_timeout_counterexample :
    (check_batch (fun _ => QueryOutcome.notFound) (fun _ => false)
        (fun ip => if ip == "1.1.1.1" then some "" else none)
        ["8.8.8.8", "1.1.1.1"] ["1.1.1.1", "8.8.8.8"]) =
      [{ ip := "1.1.1.1", is_china := false, country_code := none,
         error := some "查询超时或异常: ", cached := false },
       { ip := "8.8.8.8", is_china := false, country_code := none,
         error := some "IP地址未找到", cached := false }] ∧
    some "查询超时或异常: " ≠ some ("timeout" : String) := by
  constructor
  · rw [check_batch_multi (fun _ => QueryOutcome.notFound) (fun _ => false)
      (fun ip => if ip == "1.1.1.1" then some "" else none)
      ["8.8.8.8", "1.1.1.1"] ["1.1.1.1", "8.8.8.8"] (by decide) (by decide)]
    decide
  · decide

/-- C3 (amended): with more than one unique IP, a task whose `future.result`
raised (timeout or other exception, text `msg`) contributes an entry carrying
the original IP with `error = some ("查询超时或异常: " ++ msg)` and
`is_china = false`, and the batch is not aborted: its output keeps one entry
per deduplicated input IP. -/
theorem claim_batch_timeout_entry (db : GeoDB) (cachedOf : String → Bool)
    (timeoutOf : String → Option String) (comp ips : List String) (ip msg : String)
    (hperm : comp.Perm (pydedup ips)) (h2 : 2 ≤ (pydedup ips).length)
    (hmem : ip ∈ pydedup ips) (ht : timeoutOf ip = some msg) :
    (check_batch db cachedOf timeoutOf comp ips).length = (pydedup ips).length ∧
    ∃ r, r ∈ check_batch db cachedOf timeoutOf comp ips ∧ r.ip = ip ∧
      r.error = some ("查询超时或异常: " ++ msg) ∧ r.is_china = false ∧
      r.country_code = none := by
  rw [check_batch_multi db cachedOf timeoutOf comp ips hperm h2]
  refine ⟨List.length_map _ _, taskOf db cachedOf timeoutOf ip,
    List.mem_map_of_mem _ hmem, ?_, ?_, ?_, ?_⟩
  all_goals simp [taskOf, ht, timeoutResult]

/-- Witness for C3 (amended) on a concrete two-ip batch whose first task
times out. -/
theorem claim_batch_timeout_entry_spot :
    (check_batch (fun _ => QueryOutcome.notFound) (fun _ => false)
        (fun ip => if ip == "1.1.1.1" then some "" else none)
        ["8.8.8.8", "1.1.1.1"] ["1.1.1.1", "8.8.8.8"]).length =
      (pydedup ["1.1.1.1", "8.8.8.8"]).length ∧
    ∃ r, r ∈ check_batch (fun _ => QueryOutcome.notFound) (fun _ => false)
        (fun ip => if ip == "1.1.1.1" then some "" else none)
        ["8.8.8.8", "1.1.1.1"] ["1.1.1.1", "8.8.8.8"] ∧ r.ip = "1.1.1.1" ∧
      r.error = some ("查询超时或异常: " ++ "") ∧ r.is_china = false ∧
      r.country_code = none :=
  claim_batch_timeout_entry (fun _ => QueryOutcome.notFound) (fun _ => false)
    (fun ip => if ip == "1.1.1.1" then some "" else none)
    ["8.8.8.8", "1.1.1.1"] ["1.1.1.1", "8.8.8.8"] "1.1.1.1" ""
    (by decide) (by decide) (by decide) (by decide)

end ChinaIPChecker

namespace ChinaIPChecker

theorem get_statistics_total (db : GeoDB) (cachedOf : String → Bool)
    (timeoutOf : String → Option String) (comp ips : List String) :
    (get_statistics db cachedOf timeoutOf comp ips).total =
      (check_batch db cachedOf timeoutOf comp ips).length := rfl

theorem get_statistics_china (db : GeoDB) (cachedOf : String → Bool)
    (timeoutOf : String → Option String) (comp ips : List String) :
    (get_statistics db cachedOf timeoutOf comp ips).china_ips =
      (check_batch db cachedOf timeoutOf comp ips).countP
        (fun r => r.is_china && !errTruthy r.error) := rfl

theorem get_statistics_foreign (db : GeoDB) (cachedOf : String → Bool)
    (timeoutOf : String → Option String) (comp ips : List String) :
    (get_statistics db cachedOf timeoutOf comp ips).foreign_ips =
      (check_batch db cachedOf timeoutOf comp ips).countP
        (fun r => !r.is_china && !errTruthy r.error) := rfl

theorem get_statistics_errors (db : GeoDB) (cachedOf : String → Bool)
    (timeoutOf : String → Option String) (comp ips : List String) :
    (get_statistics db cachedOf timeoutOf comp ips).error_ips =
      (check_batch db cachedOf timeoutOf comp ips).countP
        (fun r => errTruthy r.error) := rfl

theorem get_statistics_cached (db : GeoDB) (cachedOf : String → Bool)
    (timeoutOf : String → Option String) (comp ips : List String) :
    (get_statistics db cachedOf timeoutOf comp ips).cached_ips =
      (check_batch db cachedOf timeoutOf comp ips).countP (fun r => r.cached) := rfl

theorem get_statistics_china_pct (db : GeoDB) (cachedOf : String → Bool)
    (timeoutOf : String → Option String) (comp ips : List String) :
    (get_statistics db cachedOf timeoutOf comp ips).china_percentage =
      if 0 < (check_batch db cachedOf timeoutOf comp ips).length then
        round2 (((check_batch db cachedOf timeoutOf comp ips).countP
            (fun r => r.is_china && !errTruthy r.error) : ℚ) /
          ((check_batch db cachedOf timeoutOf comp ips).length : ℚ) * 100)
      else 0 := rfl

theorem get_statistics_cache_rate (db : GeoDB) (cachedOf : String → Bool)
    (timeoutOf : String → Option String) (comp ips : List String) :
    (get_statistics db cachedOf timeoutOf comp ips).cache_hit_rate =
      if 0 < (check_batch db cachedOf timeoutOf comp ips).length then
        round2 (((check_batch db cachedOf timeoutOf comp ips).countP
            (fun r => r.cached) : ℚ) /
          ((check_batch db cachedOf timeoutOf comp ips).length : ℚ) * 100)
      else 0 := rfl

/-- C8: `check_batch([])` is empty; `get_statistics([])` is the all-zero
record with both percentages 0 (no division error is possible, the
`total == 0` branch never divides); and whenever `total` is positive both
percentages are the two-decimal rounding of `count / total * 100`. -/
theorem claim_empty_batch_stats (db : GeoDB) (cachedOf : String → Bool)
    (timeoutOf : String → Option String) (comp : List String) :
    check_batch db cachedOf timeoutOf comp [] = [] ∧
    get_statistics db cachedOf timeoutOf comp [] =
      { total := 0, china_ips := 0, foreign_ips := 0, error_ips := 0,
        cached_ips := 0, china_percentage := 0, cache_hit_rate := 0 } ∧
    ∀ ips, 0 < (get_statistics db cachedOf timeoutOf comp ips).total →
      (get_statistics db cachedOf timeoutOf comp ips).china_percentage =
        round2 (((get_statistics db cachedOf timeoutOf comp ips).china_ips : ℚ) /
          ((get_statistics db cachedOf timeoutOf comp ips).total : ℚ) * 100) ∧
      (get_statistics db cachedOf timeoutOf comp ips).cache_hit_rate =
        round2 (((get_statistics db cachedOf timeoutOf comp ips).cached_ips : ℚ) /
          ((get_statistics db cachedOf timeoutOf comp ips).total : ℚ) * 100) := by
  refine ⟨rfl, rfl, ?_⟩
  intro ips h
  rw [get_statistics_total] at h
  constructor
  · rw [get_statistics_china_pct, if_pos h, get_statistics_china, get_statistics_total]
  · rw [get_statistics_cache_rate, if_pos h, get_statistics_cached, get_statistics_total]

/-- Witness for C8's positive-total part on a concrete one-ip batch. -/
theorem claim_empty_batch_stats_spot :
    (get_statistics (fun _ => QueryOutcome.notFound) (fun _ => false) (fun _ => none)
        [] ["a"]).china_percentage =
      round2 (((get_statistics (fun _ => QueryOutcome.notFound) (fun _ => false)
          (fun _ => none) [] ["a"]).china_ips : ℚ) /
        ((get_statistics (fun _ => QueryOutcome.notFound) (fun _ => false)
          (fun _ => none) [] ["a"]).total : ℚ) * 100) ∧
    (get_statistics (fun _ => QueryOutcome.notFound) (fun _ => false) (fun _ => none)
        [] ["a"]).cache_hit_rate =
      round2 (((get_statistics (fun _ => QueryOutcome.notFound) (fun _ => false)
          (fun _ => none) [] ["a"]).cached_ips : ℚ) /
        ((get_statistics (fun _ => QueryOutcome.notFound) (fun _ => false)
          (fun _ => none) [] ["a"]).total : ℚ) * 100) :=
  (claim_empty_batch_stats (fun _ => QueryOutcome.notFound) (fun _ => false)
    (fun _ => none) []).2.2 ["a"] (by decide)

theorem countP_partition (l : List Result) :
    l.countP (fun r => r.is_china && !errTruthy r.error) +
      l.countP (fun r => !r.is_china && !errTruthy r.error) +
      l.countP (fun r => errTruthy r.error) = l.length := by
  induction l with
  | nil => rfl
  | cons r t ih =>
    simp only [List.countP_cons, List.length_cons]
    cases hc : r.is_china <;> cases he : errTruthy r.error <;>
      simp [hc, he] <;> omega

theorem timeout_msg_ne_empty (msg : String) : ("查询超时或异常: " ++ msg) ≠ "" := by
  intro h
  have hd : ("查询超时或异常: " ++ msg).data = ("" : String).data := by rw [h]
  rw [String.data_append] at hd
  exact absurd (List.append_eq_nil.mp hd).1 (by decide)

theorem taskResult_error_shape (db : GeoDB) (cachedOf : String → Bool) (ip : String)
    (hdb : ∀ ip2 msg, db ip2 = QueryOutcome.failure msg → msg ≠ "") :
    (taskResult db cachedOf ip).error = none ∨
      ∃ m, (taskResult db cachedOf ip).error = some m ∧ m ≠ "" := by
  cases hq : db ip with
  | found code => left; simp [taskResult, mkResult, queryDatabase, hq]
  | notFound =>
    right
    exact ⟨"IP地址未找到", by simp [taskResult, mkResult, queryDatabase, hq], by decide⟩
  | failure msg =>
    right
    exact ⟨msg, by simp [taskResult, mkResult, queryDatabase, hq], hdb ip msg hq⟩

theorem taskOf_error_shape (db : GeoDB) (cachedOf : String → Bool)
    (timeoutOf : String → Option String) (ip : String)
    (hdb : ∀ ip2 msg, db ip2 = QueryOutcome.failure msg → msg ≠ "") :
    (taskOf db cachedOf timeoutOf ip).error = none ∨
      ∃ m, (taskOf db cachedOf timeoutOf ip).error = some m ∧ m ≠ "" := by
  unfold taskOf
  cases ht : timeoutOf ip with
  | none => exact taskResult_error_shape db cachedOf ip hdb
  | some msg =>
    right
    exact ⟨"查询超时或异常: " ++ msg, rfl, timeout_msg_ne_empty msg⟩

theorem check_batch_error_shape (db : GeoDB) (cachedOf : String → Bool)
    (timeoutOf : String → Option String) (comp ips : List String)
    (hdb : ∀ ip2 msg, db ip2 = QueryOutcome.failure msg → msg ≠ "") :
    ∀ r ∈ check_batch db cachedOf timeoutOf comp ips,
      r.error = none ∨ ∃ m, r.error = some m ∧ m ≠ "" := by
  intro r hr
  rw [check_batch] at hr
  by_cases hnil : ips.isEmpty
  · rw [if_pos hnil] at hr
    exact absurd hr (List.not_mem_nil r)
  · rw [if_neg hnil] at hr
    rcases hu : pydedup ips with _ | ⟨x, _ | ⟨y, rest⟩⟩ <;> rw [hu] at hr
    · exact absurd hu (pydedup_ne_nil (by simpa [List.isEmpty_iff] using hnil))
    · have hr2 : r ∈ [taskResult db cachedOf x] := hr
      have hrx := List.mem_singleton.mp hr2
      subst hrx
      exact taskResult_error_shape db cachedOf x hdb
    · have hr2 : r ∈ (comp.map (taskOf db cachedOf timeoutOf)).mergeSort
          (fun a b => decide (ipKey (x :: y :: rest) a ≤ ipKey (x :: y :: rest) b)) := hr
      have hr3 : r ∈ comp.map (taskOf db cachedOf timeoutOf) :=
        (List.mergeSort_perm _ _).mem_iff.mp hr2
      obtain ⟨ip2, -, rfl⟩ := List.mem_map.mp hr3
      exact taskOf_error_shape db cachedOf timeoutOf ip2 hdb

/-- C9: the statistics counters partition the batch: `china_ips +
foreign_ips + error_ips = total` and `cached_ips ≤ total`; moreover, when
every database failure message is non-empty (as raised exception texts are),
each result's `error` is `None` or a non-empty string, so the Python
truthiness test on it is unambiguous. -/
theorem claim_stats_partition (db : GeoDB) (cachedOf : String → Bool)
    (timeoutOf : String → Option String) (comp ips : List String)
    (hdb : ∀ ip2 msg, db ip2 = QueryOutcome.failure msg → msg ≠ "") :
    (get_statistics db cachedOf timeoutOf comp ips).china_ips +
      (get_statistics db cachedOf timeoutOf comp ips).foreign_ips +
      (get_statistics db cachedOf timeoutOf comp ips).error_ips =
      (get_statistics db cachedOf timeoutOf comp ips).total ∧
    (get_statistics db cachedOf timeoutOf comp ips).cached_ips ≤
      (get_statistics db cachedOf timeoutOf comp ips).total ∧
    ∀ r ∈ check_batch db cachedOf timeoutOf comp ips,
      r.error = none ∨ ∃ m, r.error = some m ∧ m ≠ "" := by
  refine ⟨?_, ?_, check_batch_error_shape db cachedOf timeoutOf comp ips hdb⟩
  · rw [get_statistics_china, get_statistics_foreign, get_statistics_errors,
      get_statistics_total]
    exact countP_partition _
  · rw [get_statistics_cached, get_statistics_total]
    exact List.countP_le_length _

/-- Witness for C9 on a concrete batch with a duplicate. -/
theorem claim_stats_partition_spot :
    (get_statistics (fun _ => QueryOutcome.notFound) (fun _ => true) (fun _ => none)
        ["a", "b"] ["a", "b", "a"]).china_ips +
      (get_statistics (fun _ => QueryOutcome.notFound) (fun _ => true) (fun _ => none)
        ["a", "b"] ["a", "b", "a"]).foreign_ips +
      (get_statistics (fun _ => QueryOutcome.notFound) (fun _ => true) (fun _ => none)
        ["a", "b"] ["a", "b", "a"]).error_ips =
      (get_statistics (fun _ => QueryOutcome.notFound) (fun _ => true) (fun _ => none)
        ["a", "b"] ["a", "b", "a"]).total ∧
    (get_statistics (fun _ => QueryOutcome.notFound) (fun _ => true) (fun _ => none)
        ["a", "b"] ["a", "b", "a"]).cached_ips ≤
      (get_statistics (fun _ => QueryOutcome.notFound) (fun _ => true) (fun _ => none)
        ["a", "b"] ["a", "b", "a"]).total ∧
    ∀ r ∈ check_batch (fun _ => QueryOutcome.notFound) (fun _ => true) (fun _ => none)
        ["a", "b"] ["a", "b", "a"],
      r.error = none ∨ ∃ m, r.error = some m ∧ m ≠ "" :=
  claim_stats_partition (fun _ => QueryOutcome.notFound) (fun _ => true)
    (fun _ => none) ["a", "b"] ["a", "b", "a"]
    (fun _ _ h => QueryOutcome.noConfusion h)

end ChinaIPChecker

namespace ChinaIPChecker

theorem filtered_ips (unique : List String) (g : String → Result) (p : Result → Bool)
    (hg : ∀ ip, (g ip).ip = ip) :
    ((unique.map g).filter p).map (fun r => r.ip) =
      unique.filter (fun ip => p (g ip)) := by
  rw [List.filter_map, List.map_map]
  have h2 : (unique.filter (p ∘ g)).map ((fun r : Result => r.ip) ∘ g) =
      (unique.filter (p ∘ g)).map id := List.map_congr_left (fun a _ => hg a)
  rw [h2, List.map_id]
  rfl

/-- C10: `filter_china_ips` and `filter_foreign_ips` are order-preserving
subsequences of the deduplicated input, they are disjoint, and an ip whose
classification carries a (truthy) error appears in neither list. -/
theorem claim_filters_partition (db : GeoDB) (cachedOf : String → Bool)
    (timeoutOf : String → Option String) (comp ips : List String)
    (hperm : comp.Perm (pydedup ips)) :
    (filter_china_ips db cachedOf timeoutOf comp ips).Sublist (pydedup ips) ∧
    (filter_foreign_ips db cachedOf timeoutOf comp ips).Sublist (pydedup ips) ∧
    (∀ x, x ∈ filter_china_ips db cachedOf timeoutOf comp ips →
        x ∉ filter_foreign_ips db cachedOf timeoutOf comp ips) ∧
    (∀ r ∈ check_batch db cachedOf timeoutOf comp ips, errTruthy r.error = true →
        r.ip ∉ filter_china_ips db cachedOf timeoutOf comp ips ∧
        r.ip ∉ filter_foreign_ips db cachedOf timeoutOf comp ips) := by
  obtain ⟨g, hg, hcb, -⟩ := check_batch_shape db cachedOf timeoutOf comp ips hperm
  have hc : filter_china_ips db cachedOf timeoutOf comp ips =
      (pydedup ips).filter (fun ip => (g ip).is_china && !errTruthy (g ip).error) := by
    unfold filter_china_ips
    rw [hcb]
    exact filtered_ips _ g _ hg
  have hf : filter_foreign_ips db cachedOf timeoutOf comp ips =
      (pydedup ips).filter (fun ip => !(g ip).is_china && !errTruthy (g ip).error) := by
    unfold filter_foreign_ips
    rw [hcb]
    exact filtered_ips _ g _ hg
  refine ⟨?_, ?_, ?_, ?_⟩
  · rw [hc]; exact List.filter_sublist _
  · rw [hf]; exact List.filter_sublist _
  · intro x hx hy
    rw [hc] at hx
    rw [hf] at hy
    have h1 := (List.mem_filter.mp hx).2
    have h2 := (List.mem_filter.mp hy).2
    rw [Bool.and_eq_true] at h1 h2
    rw [h1.1] at h2
    exact Bool.noConfusion h2.1
  · intro r hr herr
    rw [hcb] at hr
    obtain ⟨ip0, hip0, rfl⟩ := List.mem_map.mp hr
    rw [hg ip0]
    constructor
    · rw [hc]
      intro hmem
      have hp := (List.mem_filter.mp hmem).2
      rw [Bool.and_eq_true, herr] at hp
      exact Bool.noConfusion hp.2
    · rw [hf]
      intro hmem
      have hp := (List.mem_filter.mp hmem).2
      rw [Bool.and_eq_true, herr] at hp
      exact Bool.noConfusion hp.2

/-- Witness for C10 on a concrete batch where one ip errors out. -/
theorem claim_filters_partition_spot :
    (filter_china_ips
        (fun ip => if ip == "1.1.1.1" then QueryOutcome.found (some "CN")
                   else QueryOutcome.notFound)
        (fun _ => false) (fun _ => none) ["b", "1.1.1.1"]
        ["1.1.1.1", "b", "1.1.1.1"]).Sublist (pydedup ["1.1.1.1", "b", "1.1.1.1"]) ∧
    (filter_foreign_ips
        (fun ip => if ip == "1.1.1.1" then QueryOutcome.found (some "CN")
                   else QueryOutcome.notFound)
        (fun _ => false) (fun _ => none) ["b", "1.1.1.1"]
        ["1.1.1.1", "b", "1.1.1.1"]).Sublist (pydedup ["1.1.1.1", "b", "1.1.1.1"]) ∧
    (∀ x, x ∈ filter_china_ips
        (fun ip => if ip == "1.1.1.1" then QueryOutcome.found (some "CN")
                   else QueryOutcome.notFound)
        (fun _ => false) (fun _ => none) ["b", "1.1.1.1"]
        ["1.1.1.1", "b", "1.1.1.1"] →
      x ∉ filter_foreign_ips
        (fun ip => if ip == "1.1.1.1" then QueryOutcome.found (some "CN")
                   else QueryOutcome.notFound)
        (fun _ => false) (fun _ => none) ["b", "1.1.1.1"]
        ["1.1.1.1", "b", "1.1.1.1"]) ∧
    (∀ r ∈ check_batch
        (fun ip => if ip == "1.1.1.1" then QueryOutcome.found (some "CN")
                   else QueryOutcome.notFound)
        (fun _ => false) (fun _ => none) ["b", "1.1.1.1"]
        ["1.1.1.1", "b", "1.1.1.1"], errTruthy r.error = true →
      r.ip ∉ filter_china_ips
        (fun ip => if ip == "1.1.1.1" then QueryOutcome.found (some "CN")
                   else QueryOutcome.notFound)
        (fun _ => false) (fun _ => none) ["b", "1.1.1.1"]
        ["1.1.1.1", "b", "1.1.1.1"] ∧
      r.ip ∉ filter_foreign_ips
        (fun ip => if ip == "1.1.1.1" then QueryOutcome.found (some "CN")
                   else QueryOutcome.notFound)
        (fun _ => false) (fun _ => none) ["b", "1.1.1.1"]
        ["1.1.1.1", "b", "1.1.1.1"]) :=
  claim_filters_partition
    (fun ip => if ip == "1.1.1.1" then QueryOutcome.found (some "CN")
               else QueryOutcome.notFound)
    (fun _ => false) (fun _ => none) ["b", "1.1.1.1"] ["1.1.1.1", "b", "1.1.1.1"]
    (by decide)

end ChinaIPChecker

namespace App

/-- C4: the SPF probe fails with "SPF record not found" when no TXT record
starts with `v=spf1`; otherwise it reports on the first such record (all
earlier records do not start with `v=spf1`), its issues carrying
`includes` = number of `include:` occurrences and the substring-priority
policy; on the spec's example record `includes = 2` and `policy = "-all"`. -/
theorem claim_spf_probe (txts : List String) :
    (txts.find? (fun t => isPrefixChars "v=spf1".data t.data) = none →
      (api_spf "en" txts).ok = false ∧
      (api_spf "en" txts).error = some "SPF record not found") ∧
    (∀ spf, txts.find? (fun t => isPrefixChars "v=spf1".data t.data) = some spf →
      (api_spf "en" txts).ok = true ∧
      (api_spf "en" txts).data = some spf ∧
      (api_spf "en" txts).issues =
        ["include chain " ++ toString (spfIncludes spf),
         "policy: " ++ spfPolicy spf] ∧
      ∃ pre post, txts = pre ++ spf :: post ∧
        ∀ t ∈ pre, isPrefixChars "v=spf1".data t.data = false) ∧
    spfIncludes "v=spf1 include:a.com include:b.com -all" = 2 ∧
    spfPolicy "v=spf1 include:a.com include:b.com -all" = "-all" := by
  refine ⟨?_, ?_, by decide, by decide⟩
  · intro h
    unfold api_spf
    rw [h]
    exact ⟨rfl, rfl⟩
  · intro spf h
    unfold api_spf
    rw [h]
    refine ⟨rfl, rfl, rfl, ?_⟩
    obtain ⟨-, as, bs, heq, hall⟩ := List.find?_eq_some.mp h
    exact ⟨as, bs, heq, fun t ht => by simpa using hall t ht⟩

/-- Witness for C4 on a TXT answer set holding a non-SPF record followed by
the spec's example record. -/
theorem claim_spf_probe_spot :
    (api_spf "en" ["other", "v=spf1 include:a.com include:b.com -all"]).ok = true ∧
    (api_spf "en" ["other", "v=spf1 include:a.com include:b.com -all"]).data =
      some "v=spf1 include:a.com include:b.com -all" ∧
    (api_spf "en" ["other", "v=spf1 include:a.com include:b.com -all"]).issues =
      ["include chain " ++
         toString (spfIncludes "v=spf1 include:a.com include:b.com -all"),
       "policy: " ++ spfPolicy "v=spf1 include:a.com include:b.com -all"] ∧
    ∃ pre post, ["other", "v=spf1 include:a.com include:b.com -all"] =
        pre ++ "v=spf1 include:a.com include:b.com -all" :: post ∧
      ∀ t ∈ pre, isPrefixChars "v=spf1".data t.data = false :=
  (claim_spf_probe ["other", "v=spf1 include:a.com include:b.com -all"]).2.1
    "v=spf1 include:a.com include:b.com -all" (by decide)

theorem scanCN_cons (cn : Option String) (rdn : List (String × String))
    (rest : List (List (String × String))) :
    scanCN cn (rdn :: rest) =
      if pyTruthyOpt (match findCNpair rdn with | some kv => some kv.2 | none => cn)
      then (match findCNpair rdn with | some kv => some kv.2 | none => cn)
      else scanCN (match findCNpair rdn with | some kv => some kv.2 | none => cn) rest :=
  rfl

theorem scanCN_spec (subject : List (List (String × String))) :
    ∀ cn, pyTruthyOpt cn = false →
      pyStrOr (scanCN cn subject) "(unknown)" = specCertCN subject := by
  induction subject with
  | nil =>
    intro cn hcn
    cases cn with
    | none => rfl
    | some s =>
      have hs : s.data.isEmpty = true := by simpa [pyTruthyOpt] using hcn
      simp [scanCN, pyStrOr, hs, specCertCN]
  | cons rdn rest ih =>
    intro cn hcn
    rw [scanCN_cons]
    cases hf : findCNpair rdn with
    | none =>
      rw [hcn, if_neg (by simp)]
      rw [ih cn hcn]
      simp [specCertCN, List.filterMap_cons, hf]
    | some kv =>
      by_cases hemp : kv.2.data.isEmpty = true
      · have ht : pyTruthyOpt (some kv.2) = false := by simp [pyTruthyOpt, hemp]
        rw [ht, if_neg (by simp)]
        rw [ih (some kv.2) ht]
        simp [specCertCN, List.filterMap_cons, hf, List.find?_cons, hemp]
      · have hemp2 : kv.2.data.isEmpty = false := by simpa using hemp
        have ht : pyTruthyOpt (some kv.2) = true := by simp [pyTruthyOpt, hemp2]
        rw [ht, if_pos rfl]
        simp [specCertCN, List.filterMap_cons, hf, List.find?_cons, hemp2, pyStrOr]

/-- C6 counterexample: with an empty-valued `commonName` in the first RDN and
a non-empty one in the second, the code reports the second RDN's value,
while the claim as stated (value of the first matching pair) demands `""`. -/
theorem claim_tls_certcn_counterexample :
    (api_tls_data [[("commonName", "")], [("commonName", "b")]] "TLSv1.3").certCN =
      "b" ∧
    claimCertCN [[("commonName", "")], [("commonName", "b")]] = "" ∧
    ("b" : String) ≠ "" := by
  refine ⟨by decide, by decide, by decide⟩

/-- C6 (amended): after a successful handshake `starttls` is `false` and
`weakCiphers` is `0` (fixed placeholders), `minVersion` is the negotiated
version, and `certCN` is the first non-empty per-RDN first
`commonName`-match value (case-insensitive), `"(unknown)"` when every such
contribution is absent or empty. -/
theorem claim_tls_placeholders (subject : List (List (String × String)))
    (version : String) :
    (api_tls_data subject version).starttls = false ∧
    (api_tls_data subject version).weakCiphers = 0 ∧
    (api_tls_data subject version).minVersion = version ∧
    (api_tls_data subject version).certCN = specCertCN subject :=
  ⟨rfl, rfl, rfl, scanCN_spec subject none rfl⟩

theorem api_dkim_pos (lang : String) (resolver : TxtResolver) (target : String)
    (selectors : List String) (hne : (pyStrip target).data.isEmpty = false) :
    api_dkim lang resolver target selectors =
      { ok := true
        data := selectors.map (fun s =>
          match resolver (s ++ "._domainkey." ++ pyStrip target) with
          | .ok txts => .okEntry s txts
          | .error e => .errEntry s e)
        error := none } := by
  unfold api_dkim
  simp [hne]

/-- C7: for a non-blank domain the DKIM probe returns `ok = true` with
exactly one entry per requested selector in order; a selector whose TXT
resolution fails yields an error entry at its position while every other
selector still gets its own entry. -/
theorem claim_dkim_per_selector (lang : String) (resolver : TxtResolver)
    (target : String) (selectors : List String)
    (h : (pyStrip target).data ≠ []) :
    (api_dkim lang resolver target selectors).ok = true ∧
    (api_dkim lang resolver target selectors).error = none ∧
    (api_dkim lang resolver target selectors).data.length = selectors.length ∧
    (∀ i s, selectors.get? i = some s →
      ((api_dkim lang resolver target selectors).data.get? i).map DkimEntry.selector =
        some s) ∧
    (∀ i s e, selectors.get? i = some s →
      resolver (s ++ "._domainkey." ++ pyStrip target) = Except.error e →
      (api_dkim lang resolver target selectors).data.get? i =
        some (DkimEntry.errEntry s e)) ∧
    (∀ i s txts, selectors.get? i = some s →
      resolver (s ++ "._domainkey." ++ pyStrip target) = Except.ok txts →
      (api_dkim lang resolver target selectors).data.get? i =
        some (DkimEntry.okEntry s txts)) := by
  have hne : (pyStrip target).data.isEmpty = false := by
    cases hd : (pyStrip target).data with
    | nil => exact absurd hd h
    | cons a l => rfl
  rw [api_dkim_pos lang resolver target selectors hne]
  refine ⟨rfl, rfl, by simp, ?_, ?_, ?_⟩
  · intro i s hs
    rw [List.get?_map, hs]
    cases hres : resolver (s ++ "._domainkey." ++ pyStrip target) <;>
      simp [hres, DkimEntry.selector]
  · intro i s e hs hres
    rw [List.get?_map, hs]
    simp [hres]
  · intro i s txts hs hres
    rw [List.get?_map, hs]
    simp [hres]

/-- Witness for C7: two selectors, the second failing to resolve; the call
still succeeds with one entry per selector. -/
theorem claim_dkim_per_selector_spot :
    (api_dkim "en"
        (fun name => if name == "default._domainkey.example.com"
                     then Except.ok ["k=rsa; p=xyz"] else Except.error "NXDOMAIN")
        "example.com" ["default", "bad"]).ok = true ∧
    (api_dkim "en"
        (fun name => if name == "default._domainkey.example.com"
                     then Except.ok ["k=rsa; p=xyz"] else Except.error "NXDOMAIN")
        "example.com" ["default", "bad"]).data.length = 2 :=
  ⟨(claim_dkim_per_selector "en"
      (fun name => if name == "default._domainkey.example.com"
                   then Except.ok ["k=rsa; p=xyz"] else Except.error "NXDOMAIN")
      "example.com" ["default", "bad"] (by decide)).1,
   (claim_dkim_per_selector "en"
      (fun name => if name == "default._domainkey.example.com"
                   then Except.ok ["k=rsa; p=xyz"] else Except.error "NXDOMAIN")
      "example.com" ["default", "bad"] (by decide)).2.2.1⟩

end App
